import Mathlib

/-!
Shallow embedding of the Aave-v3 liquidation bot's detection-and-decision
pipeline (discovery scanner, health engine, candidate classifier, sentry
scheduler, planner, execution safety layer, blacklist store).

Conventions of the embedding:
- JavaScript `number` values (health factors, USD totals, plan age) are
  modelled as exact rationals (`ℚ`).
- JavaScript `bigint` values (block numbers, raw token amounts, expiry
  timestamps in ms) are modelled as `ℤ` or `ℕ` as the sign demands.
- Addresses are hex strings (`Address := String`), as in the source.
- Swap paths are modelled at the byte level: every pair of hex characters in
  the source's path string is one byte here.
-/

abbrev Address := String

def zeroAddress : Address := "0x0000000000000000000000000000000000000000"

/-- Candidate status tiers used by both scanners (`scan.ts` and the batch
scanner): `below_watch` is never emitted, `watch` and `exec_ready` are. -/
inductive CandStatus
  | below_watch
  | watch
  | exec_ready
deriving DecidableEq, Repr

/-- The status-tier assignment shared by both scanners:
`let candidateStatus = "below_watch"; if (hf < 1.0) candidateStatus =
"exec_ready"; else if (hf < 1.1) candidateStatus = "watch";`. -/
def tierOf (hf : ℚ) : CandStatus :=
  if hf < 1 then .exec_ready
  else if hf < 11/10 then .watch
  else .below_watch

/-- Candidate classifier of the batch scanner (`scanCmd`, one-shot variant):
drops `below_watch` tiers, then drops snapshots with
`health.totalDebtUSD < 10`, and otherwise emits the tier's status. -/
def classifyScan (hf totalDebtUSD : ℚ) : Option CandStatus :=
  if tierOf hf = .below_watch then none
  else if totalDebtUSD < 10 then none
  else some (tierOf hf)

/-- Candidate classifier of the sentry daemon (`scan.ts`): drops
`below_watch` tiers, then the "ghost filter"
(`totalCollateralUSD < 1 && totalDebtUSD < 1`), then blacklisted users,
and otherwise emits the tier's status. -/
def classifySentry (hf totalCollateralUSD totalDebtUSD : ℚ)
    (blacklisted : Bool) : Option CandStatus :=
  if tierOf hf = .below_watch then none
  else if totalCollateralUSD < 1 ∧ totalDebtUSD < 1 then none
  else if blacklisted then none
  else some (tierOf hf)

/-- `padFee3Bytes(fee)`: the 3-byte big-endian encoding of a pool fee tier
(the source pads the fee's hex string to 6 hex characters = 3 bytes). -/
def padFee3Bytes (fee : ℕ) : List ℕ :=
  [fee / 65536 % 256, fee / 256 % 256, fee % 256]

/-- Big-endian value of a 3-byte fee segment (used by the decoder). -/
def fee3Value : List ℕ → ℕ
  | [a, b, c] => a * 65536 + b * 256 + c
  | _ => 0

/-- The loop body of `encodeV3Path` after the first token: for each further
hop the source appends the 3-byte fee then the next token
(`out += feeHex + b`). -/
def encodeHops : List (List ℕ) → List ℕ → List ℕ
  | b :: rest, f :: fees => padFee3Bytes f ++ b ++ encodeHops rest fees
  | _, _ => []

/-- `encodeV3Path(tokens, fees)` from `plan.ts`: the first token
(`if (i === 0) out += a`), then fee/token pairs; fewer than two tokens
produce the empty path (the loop body never runs). -/
def encodeV3Path (tokens : List (List ℕ)) (fees : List ℕ) : List ℕ :=
  match tokens with
  | [] => []
  | [_] => []
  | a :: rest => a ++ encodeHops rest fees

/-- Decoding of the tail of a path, as the claim describes it: split the
remaining bytes into alternating 3-byte big-endian fee and 20-byte token
segments. -/
def decodeHops (bs : List ℕ) : Option (List (List ℕ) × List ℕ) :=
  if bs = [] then some ([], [])
  else if _h : 23 ≤ bs.length then
    match decodeHops (bs.drop 23) with
    | some (toks, fees) =>
        some ((bs.drop 3).take 20 :: toks, fee3Value (bs.take 3) :: fees)
    | none => none
  else none
termination_by bs.length
decreasing_by simp; omega

/-- Decoding of a full path, as the claim describes it: a leading 20-byte
token followed by alternating 3-byte fee / 20-byte token segments. -/
def decodeV3Path (bs : List ℕ) : Option (List (List ℕ) × List ℕ) :=
  if 20 ≤ bs.length then
    match decodeHops (bs.drop 20) with
    | some (toks, fees) => some (bs.take 20 :: toks, fees)
    | none => none
  else none

def addrUSDC : Address := "0xaf88d065e77c8cC2239327C5EDb3A432268e5831"

def addrUSDT : Address := "0xFd086bC7CD5C481DCC9C85ebE478A1C0b69FCbb9"

def addrWETH : Address := "0x82aF49447D8a07e3bd95BD0d56f35241523fBab1"

def addrARB : Address := "0x912CE59144191C1204E64559FE8253a0e49E6548"

def addrWBTC : Address := "0x2f2a2543B76A4166549F7aaB2e75Bef0aefC5B0f"

def addrDAI : Address := "0xDA10009cBd5D07dd0CeCc66161FC93D7c9000da1"

/-- The fixed allow-listed reserve set (`TOP_RESERVES`, Arbitrum Aave V3). -/
def TOP_RESERVES : List Address :=
  [addrUSDC, addrUSDT, addrWETH, addrARB, addrWBTC, addrDAI]

/-- A candidate record as the planner reads it from `candidates.jsonl`
(diagnostic-only fields like `ts`, `proximity` and the note text are
omitted).  `bestDebtAmount` is the serialized bigint, absent when the scan
did not perform the asset lookup. -/
structure Candidate where
  candidateId : String
  borrower : Address
  healthFactor : ℚ
  totalCollateralUSD : ℚ
  totalDebtUSD : ℚ
  bestDebt : Address
  bestCollateral : Address
  bestDebtAmount : Option ℕ
  status : CandStatus
deriving DecidableEq, Repr

/-- Result of the just-in-time `getUserAssets` lookup: best pair plus the
raw outstanding amount of the chosen debt asset (zero address when no
asset qualified). -/
structure AssetsResult where
  bestDebt : Address
  bestCollateral : Address
  bestDebtAmount : ℕ
deriving DecidableEq, Repr

/-- The Aave executor order built by the planner (`ExecutorOrder`). -/
structure ExecutorOrder where
  debtAsset : Address
  collateralAsset : Address
  borrower : Address
  repayAmount : ℕ
  uniPath : List ℕ
  amountOutMin : ℕ
  minProfit : ℕ
  deadline : ℕ
  maxTxGasPrice : ℕ
  referralCode : ℕ
  nonce : ℕ
deriving DecidableEq, Repr

inductive PlanAction
  | WATCH
  | EXEC
  | SKIP
deriving DecidableEq, Repr

/-- One entry of `tx_plan.json` (diagnostic note text omitted). -/
structure TxPlanItem where
  candidateId : String
  borrower : Address
  netProfitUsd : ℚ
  action : PlanAction
  pass : Bool
  order : Option ExecutorOrder
deriving DecidableEq, Repr

/-- The planner's asset resolution for an `exec_ready` candidate: keep the
candidate's own best pair and amount unless its best debt is the zero
address (not fetched yet), in which case the just-in-time `getUserAssets`
result replaces all three fields. -/
def resolvedAssets (c : Candidate) (jit : AssetsResult) :
    Address × Address × ℕ :=
  if c.bestDebt = zeroAddress then
    (jit.bestDebt, jit.bestCollateral, jit.bestDebtAmount)
  else (c.bestDebt, c.bestCollateral, c.bestDebtAmount.getD 0)

/-- The outstanding debt the planner sizes the repay against: the resolved
best-debt raw amount. -/
def resolvedDebtAmount (c : Candidate) (jit : AssetsResult) : ℕ :=
  (resolvedAssets c jit).2.2

/-- A non-actionable plan item (WATCH note with diagnostics, no order). -/
def watchNote (c : Candidate) : TxPlanItem :=
  { candidateId := c.candidateId, borrower := c.borrower, netProfitUsd := 0,
    action := .WATCH, pass := false, order := none }

/-- The planner's per-candidate step (`planCmd` loop body) for candidates
that are not `below_watch`: `exec_ready` candidates with a valid resolved
asset pair and a positive resolved debt amount yield an EXEC item carrying
an order with `repayAmount = fullDebt / 2n` (integer division), a
single-hop 3000-fee swap path, zero `amountOutMin`/`minProfit`, a
`now + 300 s` deadline and a `Date.now()` nonce; all others pass through as
watch notes.  `addrBytes` is the hex-to-byte reading of an address used by
the byte-level path model; `now` is `Date.now()` in ms. -/
def planItem (now maxTxGasPriceWei referralCode : ℕ)
    (addrBytes : Address → List ℕ) (c : Candidate) (jit : AssetsResult) :
    TxPlanItem :=
  if c.status = .exec_ready then
    let r := resolvedAssets c jit
    if r.1 ≠ zeroAddress ∧ r.2.1 ≠ zeroAddress then
      if 0 < r.2.2 then
        { candidateId := c.candidateId, borrower := c.borrower,
          netProfitUsd := 0, action := .EXEC, pass := true,
          order := some {
            debtAsset := c.bestDebt,
            collateralAsset := c.bestCollateral,
            borrower := c.borrower,
            repayAmount := r.2.2 / 2,
            uniPath := encodeV3Path
              [addrBytes c.bestCollateral, addrBytes c.bestDebt] [3000],
            amountOutMin := 0,
            minProfit := 0,
            deadline := now / 1000 + 300,
            maxTxGasPrice := maxTxGasPriceWei,
            referralCode := referralCode,
            nonce := now } }
      else watchNote c
    else watchNote c
  else watchNote c

/-- A concrete `exec_ready` candidate used to witness the planner
theorems: best debt USDC with a raw outstanding amount of 1000001. -/
def exampleCandidate : Candidate :=
  { candidateId := "c", borrower := "0xb", healthFactor := 19/20,
    totalCollateralUSD := 1000, totalDebtUSD := 500, bestDebt := addrUSDC,
    bestCollateral := addrWETH, bestDebtAmount := some 1000001,
    status := .exec_ready }

/-- The order the planner builds for `exampleCandidate` at
`now = 1700000000000 ms` with a max gas price of 10^8 wei. -/
def exampleOrder : ExecutorOrder :=
  { debtAsset := addrUSDC, collateralAsset := addrWETH, borrower := "0xb",
    repayAmount := 500000, uniPath := encodeV3Path [[], []] [3000],
    amountOutMin := 0, minProfit := 0, deadline := 1700000300,
    maxTxGasPrice := 100000000, referralCode := 0,
    nonce := 1700000000000 }

/-- Outcome of simulating an order against the settlement contract, with
the revert classification of `classifyErr`: reverts mentioning
"health factor" / "healthy" / "no collateral" are `revertHealthy`, all
other simulation or broadcast failures are `revertOther`. -/
inductive SimOutcome
  | success
  | revertHealthy
  | revertOther
deriving DecidableEq, Repr

/-- Observable per-order actions of one execution cycle (`execCmd`). -/
inductive ExecEvent
  | skipGas (borrower : Address)
  | simulate (borrower : Address)
  | broadcast (borrower : Address)
  | blacklistAdd (borrower : Address)
deriving DecidableEq, Repr

/-- The per-order loop of `execCmd` over the selected EXEC items:
increment the try counter, skip the order when the current network gas
price exceeds the configured cap (no blacklist), otherwise re-simulate;
on success broadcast and stop; on a classified failure add the borrower to
the blacklist and try the next order. `gasPrice t` is the gas price
fetched on try `t`; `sim` gives each borrower's simulation outcome. -/
def execLoop (gasCap : ℕ) (gasPrice : ℕ → ℕ) (sim : Address → SimOutcome) :
    List Address → ℕ → List ExecEvent
  | [], _ => []
  | b :: rest, tried =>
      if gasCap < gasPrice (tried + 1) then
        .skipGas b :: execLoop gasCap gasPrice sim rest (tried + 1)
      else
        match sim b with
        | .success => [.simulate b, .broadcast b]
        | .revertHealthy =>
            .simulate b :: .blacklistAdd b ::
              execLoop gasCap gasPrice sim rest (tried + 1)
        | .revertOther =>
            .simulate b :: .blacklistAdd b ::
              execLoop gasCap gasPrice sim rest (tried + 1)

/-- The EXEC selection of `execCmd`: items with `action === "EXEC"`,
`pass` and an order (the profit sort only permutes attempts and is left
to the caller). -/
def selectExecs (items : List TxPlanItem) : List TxPlanItem :=
  items.filter (fun x => x.action = .EXEC ∧ x.pass = true ∧ x.order ≠ none)

/-- One execution cycle of `execCmd` after loading `tx_plan.json`: if no
selected item exists, return; then the staleness guard
(`planAge > maxAgeSec` with `maxAgeSec = 90`) aborts the whole cycle;
otherwise the per-order loop runs.
`planAgeSec = (Date.now() - Date.parse(plan.generatedAt)) / 1000`. -/
def execCycle (planAgeSec : ℚ) (gasCap : ℕ) (gasPrice : ℕ → ℕ)
    (sim : Address → SimOutcome) (items : List TxPlanItem) :
    List ExecEvent :=
  if selectExecs items = [] then []
  else if 90 < planAgeSec then []
  else execLoop gasCap gasPrice sim ((selectExecs items).map (·.borrower)) 0

/-- The blacklist file `blacklist.json`: a JS object mapping lowercased
address → expiry timestamp in ms, modelled as an association list with at
most one binding per key (JS property assignment replaces). -/
abbrev Blacklist := List (Address × ℕ)

/-- ASCII lowercase of one character (hex address strings only contain
ASCII, so this is exactly `toLowerCase` on them). -/
def lowerChar (c : Char) : Char :=
  if 'A' ≤ c ∧ c ≤ 'Z' then Char.ofNat (c.toNat + 32) else c

/-- `addr.toLowerCase()`. -/
def lowerAddr (a : Address) : Address := ⟨a.data.map lowerChar⟩

/-- `isBlacklisted(bl, addr)`: look up the lowercased address; a missing
binding or a zero (falsy) expiry is not blacklisted; an expiry with
`Date.now() > expiry` is expired; otherwise the account is blacklisted.
The `Date.now()` read is the explicit `now` argument. -/
def isBlacklisted (bl : Blacklist) (addr : Address) (now : ℕ) : Bool :=
  match List.lookup (lowerAddr addr) bl with
  | none => false
  | some expiry =>
      if expiry = 0 then false
      else if expiry < now then false
      else true

/-- JS object property assignment `bl[k] = v`: replace any existing
binding of `k`, otherwise append. -/
def setKey (bl : Blacklist) (k : Address) (v : ℕ) : Blacklist :=
  bl.filter (fun kv => kv.1 ≠ k) ++ [(k, v)]

/-- `addToBlacklist(addr, durationMs)`: load, prune every entry whose
expiry is strictly in the past (`bl[k] < now`), then bind the lowercased
address to `now + durationMs` and save. The default duration is
3600000 ms (1 h). -/
def addToBlacklist (bl : Blacklist) (addr : Address) (now durationMs : ℕ) :
    Blacklist :=
  setKey (bl.filter (fun kv => ¬ kv.2 < now)) (lowerAddr addr)
    (now + durationMs)

/-- The rotating background chunk: the sentry's cursor wraps to 0 when it
has passed the end of the universe, then `dbUsers.slice(cursor,
cursor + CHUNK_SIZE)` with `CHUNK_SIZE = 50`. -/
def chunkOf (dbUsers : List Address) (cursor : ℕ) : List Address :=
  (dbUsers.drop (if dbUsers.length ≤ cursor then 0 else cursor)).take 50

/-- The set of accounts one sentry cycle passes to the health engine's
batched multicall: the priority lane filtered against the blacklist
(`priorityUsers.filter(u => !isBlacklisted(blacklist, u))`), merged and
deduplicated with the rotating background chunk; nothing is evaluated when
the universe is empty. -/
def usersCheck (bl : Blacklist) (now : ℕ) (priority dbUsers : List Address)
    (cursor : ℕ) : List Address :=
  if dbUsers = [] then []
  else ((priority.filter (fun u => ! isBlacklisted bl u now)) ++
    chunkOf dbUsers cursor).dedup

/-- A solvency snapshot (`UserHealth`). The best-asset fields are `none`
when the read skipped them (coarse batched path) and explicitly the zero
address / absent amount in the detailed path. -/
structure UserHealth where
  user : Address
  healthFactor : ℚ
  totalCollateralUSD : ℚ
  totalDebtUSD : ℚ
  bestDebt : Option Address
  bestCollateral : Option Address
  bestDebtAmount : Option ℕ
deriving DecidableEq, Repr

/-- JS `Set.add`: append if absent (insertion-ordered set). -/
def prInsert (pr : List Address) (u : Address) : List Address :=
  if u ∈ pr then pr else pr ++ [u]

/-- JS `Set.delete`. -/
def prErase (pr : List Address) (u : Address) : List Address :=
  pr.filter (fun x => x ≠ u)

/-- The sentry daemon's per-result priority-set update: users with
`hf < 1.5 && hf > 0` are kept/added, all others removed; afterwards the
candidate path's cleanup deletes the user again when it is in the
watch/exec tiers but hits the ghost filter or the blacklist. -/
def priorityUpdate (bl : Blacklist) (now : ℕ) (pr : List Address)
    (h : UserHealth) : List Address :=
  let pr1 := if h.healthFactor < 3/2 ∧ 0 < h.healthFactor
    then prInsert pr h.user else prErase pr h.user
  if tierOf h.healthFactor = .below_watch then pr1
  else if h.totalCollateralUSD < 1 ∧ h.totalDebtUSD < 1 then
    prErase pr1 h.user
  else if isBlacklisted bl h.user now then prErase pr1 h.user
  else pr1

/-- Raw `getUserAccountData` result for one account: base-currency totals
(1e8 scale) and the 1e18 fixed-point health factor, as unsigned chain
integers. -/
structure RawAccountData where
  totalCollateralBase : ℕ
  totalDebtBase : ℕ
  healthFactor : ℕ
deriving DecidableEq, Repr

/-- `Number(healthFactor) / 1e18`. -/
def hfOf (raw : RawAccountData) : ℚ := (raw.healthFactor : ℚ) / 10^18

/-- `getUserHealthDetailed`: re-reads the coarse account data and returns
it with explicit zero-address best assets and no best-debt amount — the
comment in the source says best assets are deliberately not fetched here
("too slow for scan"; the planner fetches them when needed). -/
def getUserHealthDetailed (user : Address) (raw : RawAccountData) :
    UserHealth :=
  { user := user, healthFactor := hfOf raw,
    totalCollateralUSD := (raw.totalCollateralBase : ℚ) / 10^8,
    totalDebtUSD := (raw.totalDebtBase : ℚ) / 10^8,
    bestDebt := some zeroAddress, bestCollateral := some zeroAddress,
    bestDebtAmount := none }

/-- The per-account parse step of `getUsersHealthBatch`: accounts with
hf ≥ 1.1 get only the coarse snapshot (no best-asset fields at all);
accounts below the ceiling go through the extra per-account
`getUserHealthDetailed` call. -/
def parseHealth (user : Address) (raw : RawAccountData) : UserHealth :=
  if 11/10 ≤ hfOf raw then
    { user := user, healthFactor := hfOf raw,
      totalCollateralUSD := (raw.totalCollateralBase : ℚ) / 10^8,
      totalDebtUSD := (raw.totalDebtBase : ℚ) / 10^8,
      bestDebt := none, bestCollateral := none, bestDebtAmount := none }
  else getUserHealthDetailed user raw

/-- Per-reserve on-chain reads of `getUserAssets` for one user: oracle
price, aToken (collateral) balance and variable-debt balance, raw. -/
structure ReserveBalances where
  price : ℕ
  aTokenBalance : ℕ
  debtBalance : ℕ
deriving DecidableEq, Repr

/-- Running state of the `getUserAssets` selection loop. -/
structure AssetScan where
  bestDebt : Option Address
  bestCollateral : Option Address
  maxDebtValue : ℚ
  maxCollateralValue : ℚ
  bestDebtAmount : ℕ
deriving DecidableEq, Repr

/-- One iteration of the `getUserAssets` loop over a reserve asset:
update the best collateral when the positive aToken balance's USD value
(`Number(balance * price) / 1e8`) strictly exceeds the running maximum,
then likewise the best debt (also recording the raw debt balance). -/
def assetStep (bal : Address → ReserveBalances) (st : AssetScan)
    (reserveAsset : Address) : AssetScan :=
  let b := bal reserveAsset
  let colVal : ℚ := (b.aTokenBalance * b.price : ℕ) / 10^8
  let debtVal : ℚ := (b.debtBalance * b.price : ℕ) / 10^8
  let st1 := if 0 < b.aTokenBalance ∧ st.maxCollateralValue < colVal then
      { st with
          bestCollateral := some reserveAsset
          maxCollateralValue := colVal }
    else st
  if 0 < b.debtBalance ∧ st1.maxDebtValue < debtVal then
    { st1 with
        bestDebt := some reserveAsset
        maxDebtValue := debtVal
        bestDebtAmount := b.debtBalance }
  else st1

/-- `getUserAssets(user, …)`: fold the selection loop over the allow-listed
reserve set and return the best pair (zero address when nothing
qualified) and the raw amount of the chosen debt asset. -/
def getUserAssets (bal : Address → ReserveBalances) : AssetsResult :=
  let final := TOP_RESERVES.foldl (assetStep bal) ⟨none, none, 0, 0, 0⟩
  { bestDebt := final.bestDebt.getD zeroAddress,
    bestCollateral := final.bestCollateral.getD zeroAddress,
    bestDebtAmount := final.bestDebtAmount }

/-- Concrete account data for the C5 theorems: health factor 0.95,
collateral $1000, debt $500 (base-currency scale 1e8). -/
def exRaw : RawAccountData :=
  { totalCollateralBase := 100000000000, totalDebtBase := 50000000000,
    healthFactor := 950000000000000000 }

/-- Concrete reserve balances for the C5 theorems: the user's only debt is
500 USDC (6 decimals) and the only collateral is 0.3 WETH, at prices
$1 and $3300 (1e8 oracle scale). -/
def exBal : Address → ReserveBalances := fun a =>
  if a = addrUSDC then ⟨100000000, 0, 500000000⟩
  else if a = addrWETH then ⟨330000000000, 300000000000000000, 0⟩
  else ⟨0, 0, 0⟩

/-- One computed scan window of the discovery miner (`scanCmd`). -/
structure ScanWindow where
  isBackfill : Bool
  fromBlock : ℤ
  toBlock : ℤ
deriving DecidableEq, Repr

/-- The window policy of the discovery miner: forward from
`lastScanned + 1` (or `tip − 10000` on first run), clamped to the tip,
snapping to `tip − 10000` when more than five windows behind; when the
universe is below 50000 users, a backfill window ending at
`deepHead − 1` of width 10000, shrunk to width 1000 when its start would
lie below block 10000000 ("Don't go to genesis"); `deepHead = 0` (no
history) restarts from the tip. -/
def computeWindow (currentBlock lastScanned deepHead : ℤ)
    (universeSize : ℕ) : ScanWindow :=
  let fromB0 := if lastScanned = 0 then currentBlock - 10000
    else lastScanned + 1
  let toB0 := fromB0 + 10000
  let toB1 := if currentBlock < toB0 then currentBlock else toB0
  if universeSize < 50000 then
    let dh := if deepHead = 0 then currentBlock else deepHead
    let toB := dh - 1
    let fromB1 := toB - 10000
    let fromB := if fromB1 < 10000000 then toB - 1000 else fromB1
    ⟨true, fromB, toB⟩
  else
    if fromB0 < currentBlock - 50000 then
      ⟨false, currentBlock - 10000, currentBlock⟩
    else ⟨false, fromB0, toB1⟩

/-- The `(lastBlock, deepBlock)` pair persisted after a successful scan of
the computed window: a backfill window writes `deepBlock := fromBlock`
only; a forward window writes `lastBlock := toBlock`, unless it is empty
(`fromBlock > toBlock`, "up to date"), which skips the scan and leaves both
pointers unchanged. -/
def updatedPointers (currentBlock lastScanned deepHead : ℤ)
    (universeSize : ℕ) : ℤ × ℤ :=
  let w := computeWindow currentBlock lastScanned deepHead universeSize
  if w.isBackfill then (lastScanned, w.fromBlock)
  else if w.toBlock < w.fromBlock then (lastScanned, deepHead)
  else (w.toBlock, deepHead)

/-- C1 counterexample: a snapshot with health factor 1.05 (inside
[1.0, 1.1)) but total debt of $5 emits no candidate from the batch
scanner's classifier, although the claim demands a `watch` candidate for
every health factor in [1.0, 1.1). -/
theorem c1_watch_not_always_emitted :
    1 ≤ (21/20 : ℚ) ∧ (21/20 : ℚ) < 11/10 ∧ classifyScan (21/20) 5 = none := by
  refine ⟨by norm_num, by norm_num, ?_⟩
  norm_num [classifyScan, tierOf]

/-- C1 (amended): the classifier is the three-tier mapping on health factor
for snapshots that pass the $10 debt dust filter: health factor ≥ 1.1
emits no candidate regardless of debt; if total debt USD is ≥ 10, a health
factor in [1.0, 1.1) emits `watch` and a health factor < 1.0 emits
`exec_ready`. -/
theorem c1_classifier_three_tiers (hf debt : ℚ) :
    (11/10 ≤ hf → classifyScan hf debt = none) ∧
    (10 ≤ debt →
      ((1 ≤ hf ∧ hf < 11/10) → classifyScan hf debt = some .watch) ∧
      (hf < 1 → classifyScan hf debt = some .exec_ready)) := by
  refine ⟨fun h => ?_, fun hd => ⟨fun h => ?_, fun h => ?_⟩⟩
  · simp only [classifyScan, tierOf]
    rw [if_neg (by linarith : ¬ hf < 1), if_neg (by linarith : ¬ hf < 11/10),
      if_pos rfl]
  · obtain ⟨h1, h2⟩ := h
    simp only [classifyScan, tierOf]
    rw [if_neg (by linarith : ¬ hf < 1), if_pos h2, if_neg (by decide),
      if_neg (by linarith : ¬ debt < 10)]
  · simp only [classifyScan, tierOf]
    rw [if_pos h, if_neg (by decide), if_neg (by linarith : ¬ debt < 10)]

/-- Witness for C1: the amended classifier theorem applied at concrete
health factors 1.05, 0.5 and 2.0 with debt $50. -/
theorem c1_classifier_three_tiers_witness :
    classifyScan (21/20) 50 = some .watch ∧
      classifyScan (1/2) 50 = some .exec_ready ∧
      classifyScan 2 50 = none :=
  ⟨((c1_classifier_three_tiers (21/20) 50).2 (by norm_num)).1
      ⟨by norm_num, by norm_num⟩,
   ((c1_classifier_three_tiers (1/2) 50).2 (by norm_num)).2 (by norm_num),
   (c1_classifier_three_tiers 2 50).1 (by norm_num)⟩

/-- C6 counterexample: the sentry daemon's classifier emits an `exec_ready`
candidate for a snapshot with health factor 0.95, collateral $500 and
total debt $5 (< the claimed $10 dust floor): its only dust filter requires
both collateral and debt below $1. -/
theorem c6_sentry_emits_small_debt :
    classifySentry (19/20) 500 5 false = some .exec_ready ∧ (5:ℚ) < 10 := by
  refine ⟨?_, by norm_num⟩
  simp only [classifySentry, tierOf]
  rw [if_pos (by norm_num : (19/20 : ℚ) < 1), if_neg (by decide),
    if_neg (by norm_num : ¬((500:ℚ) < 1 ∧ (5:ℚ) < 1)), if_neg (by simp)]

/-- C6 (amended): the $10 total-debt dust floor holds in the batch
scanner's classifier (debt < $10 emits nothing, at any health factor); the
sentry daemon's classifier instead only drops snapshots whose collateral
and debt are both below $1, and blacklisted users. -/
theorem c6_dust_filters :
    (∀ hf debt : ℚ, debt < 10 → classifyScan hf debt = none) ∧
    (∀ hf col debt : ℚ, ∀ bl : Bool, ∀ s : CandStatus,
      classifySentry hf col debt bl = some s →
        ¬(col < 1 ∧ debt < 1) ∧ bl = false) := by
  constructor
  · intro hf debt hd
    simp only [classifyScan]
    split_ifs <;> simp_all
  · intro hf col debt bl s h
    simp only [classifySentry] at h
    split_ifs at h with h1 h2 h3
    all_goals first
      | exact Option.noConfusion h
      | exact ⟨h2, by simpa using h3⟩

/-- Witness for C6: the dust-filter theorem applied to a batch-scanner
snapshot with debt $5 and to the sentry classifier's concrete output at
collateral $500, debt $5. -/
theorem c6_dust_filters_witness :
    classifyScan (19/20) 5 = none ∧
      (¬((500:ℚ) < 1 ∧ (5:ℚ) < 1) ∧ false = false) :=
  ⟨c6_dust_filters.1 (19/20) 5 (by norm_num),
   c6_dust_filters.2 (19/20) 500 5 false .exec_ready (by
     simp only [classifySentry, tierOf]
     rw [if_pos (by norm_num : (19/20 : ℚ) < 1), if_neg (by decide),
       if_neg (by norm_num : ¬((500:ℚ) < 1 ∧ (5:ℚ) < 1)), if_neg (by simp)])⟩

theorem decodeHops_nil : decodeHops [] = some ([], []) := by
  rw [decodeHops]
  simp

theorem fee3Value_padFee3Bytes (f : ℕ) (h : f < 16777216) :
    fee3Value (padFee3Bytes f) = f := by
  simp only [padFee3Bytes, fee3Value]
  omega

theorem decodeHops_encodeHops (rest : List (List ℕ)) (fees : List ℕ)
    (htok : ∀ t ∈ rest, t.length = 20) (harity : fees.length = rest.length)
    (hfee : ∀ f ∈ fees, f < 16777216) :
    decodeHops (encodeHops rest fees) = some (rest, fees) := by
  induction rest generalizing fees with
  | nil =>
    cases fees with
    | nil => simp [encodeHops, decodeHops_nil]
    | cons f fs => simp at harity
  | cons b rest ih =>
    cases fees with
    | nil => simp at harity
    | cons f fs =>
      have hb : b.length = 20 := htok b (by simp)
      have hlen : 23 ≤ (encodeHops (b :: rest) (f :: fs)).length := by
        simp [encodeHops, padFee3Bytes, hb]
      have hne : encodeHops (b :: rest) (f :: fs) ≠ [] := by
        intro hc
        rw [hc] at hlen
        simp at hlen
      rw [decodeHops, if_neg hne, dif_pos hlen]
      have hdrop23 : (encodeHops (b :: rest) (f :: fs)).drop 23 =
          encodeHops rest fs := by
        simp only [encodeHops]
        rw [List.drop_append_eq_append_drop]
        simp [padFee3Bytes, hb]
      have htake3 : (encodeHops (b :: rest) (f :: fs)).take 3 =
          padFee3Bytes f := by
        simp only [encodeHops, padFee3Bytes]
        simp
      have hmid : ((encodeHops (b :: rest) (f :: fs)).drop 3).take 20 = b := by
        simp only [encodeHops, padFee3Bytes]
        simp [List.take_append_eq_append_take, hb]
      rw [hdrop23, ih fs (fun t ht => htok t (List.mem_cons_of_mem _ ht))
        (by simpa using harity) (fun g hg => hfee g (List.mem_cons_of_mem _ hg))]
      rw [htake3, hmid, fee3Value_padFee3Bytes f (hfee f (List.mem_cons_self _ _))]

/-- C10: the swap-path round trip. For n ≥ 2 tokens of 20 bytes each and
n-1 fees each below 2^24, decoding the path built by `encodeV3Path`
recovers exactly the original token sequence and per-hop fees. -/
theorem c10_path_roundtrip (tokens : List (List ℕ)) (fees : List ℕ)
    (h2 : 2 ≤ tokens.length) (harity : fees.length + 1 = tokens.length)
    (htok : ∀ t ∈ tokens, t.length = 20)
    (hfee : ∀ f ∈ fees, f < 16777216) :
    decodeV3Path (encodeV3Path tokens fees) = some (tokens, fees) := by
  match tokens, h2 with
  | a :: b :: rest, _ =>
    have ha : a.length = 20 := htok a (by simp)
    have henc : encodeV3Path (a :: b :: rest) fees =
        a ++ encodeHops (b :: rest) fees := rfl
    have htail : decodeHops (encodeHops (b :: rest) fees) =
        some (b :: rest, fees) := by
      refine decodeHops_encodeHops (b :: rest) fees
        (fun t ht => htok t (List.mem_cons_of_mem _ ht)) ?_ hfee
      simpa using harity
    have htake : (a ++ encodeHops (b :: rest) fees).take 20 = a := by
      rw [← ha, List.take_left]
    have hdrop : (a ++ encodeHops (b :: rest) fees).drop 20 =
        encodeHops (b :: rest) fees := by
      rw [← ha, List.drop_left]
    have hlen : 20 ≤ (a ++ encodeHops (b :: rest) fees).length := by
      simp [ha]
    rw [henc]
    simp only [decodeV3Path, if_pos hlen, hdrop, htail, htake]

/-- Witness for C10: the round trip applied to the concrete two-token path
with fee tier 3000. -/
theorem c10_path_roundtrip_witness :
    decodeV3Path (encodeV3Path [List.replicate 20 1, List.replicate 20 2]
        [3000]) = some ([List.replicate 20 1, List.replicate 20 2], [3000]) :=
  c10_path_roundtrip [List.replicate 20 1, List.replicate 20 2] [3000]
    (by simp) (by simp) (by simp) (by simp)

/-- C2: every order the planner emits repays exactly
floor(outstandingDebt / 2), where the outstanding debt is the candidate's
resolved best-debt raw amount (the just-in-time lookup result when the
candidate had none), in exact integer arithmetic. -/
theorem c2_repay_is_half_debt (now mg rc : ℕ) (addrBytes : Address → List ℕ)
    (c : Candidate) (jit : AssetsResult) (o : ExecutorOrder)
    (h : (planItem now mg rc addrBytes c jit).order = some o) :
    o.repayAmount = resolvedDebtAmount c jit / 2 := by
  simp only [planItem] at h
  split_ifs at h with h1 h2 h3
  · obtain ⟨rfl⟩ := Option.some.injEq _ _ ▸ h
    rfl
  all_goals exact Option.noConfusion h

/-- Witness for C2: the repay theorem applied to `exampleCandidate`
(best-debt amount 1000001 raw units); the emitted order repays
500000 = floor(1000001 / 2). -/
theorem c2_repay_is_half_debt_witness :
    (planItem 1700000000000 100000000 0 (fun _ => []) exampleCandidate
        ⟨zeroAddress, zeroAddress, 0⟩).order = some exampleOrder ∧
    exampleOrder.repayAmount =
      resolvedDebtAmount exampleCandidate ⟨zeroAddress, zeroAddress, 0⟩ / 2 :=
  ⟨by decide, c2_repay_is_half_debt 1700000000000 100000000 0 (fun _ => [])
    exampleCandidate ⟨zeroAddress, zeroAddress, 0⟩ exampleOrder (by decide)⟩

/-- C3: when the published plan is older than the 90-second staleness
ceiling, the execution cycle produces no events at all — no order is
simulated or broadcast, no gas probe happens and no account is
blacklisted. -/
theorem c3_stale_plan_aborts (planAgeSec : ℚ) (gasCap : ℕ)
    (gasPrice : ℕ → ℕ) (sim : Address → SimOutcome)
    (items : List TxPlanItem) (hstale : 90 < planAgeSec) :
    execCycle planAgeSec gasCap gasPrice sim items = [] := by
  simp only [execCycle]
  split_ifs with h1 <;> rfl

/-- Witness for C3: a 120-second-old plan with one selectable EXEC item
aborts with an empty event trace. -/
theorem c3_stale_plan_aborts_witness :
    (90:ℚ) < 120 ∧
      execCycle 120 1000000 (fun _ => 0) (fun _ => .success)
        [{ candidateId := "c", borrower := "0xb", netProfitUsd := 5,
            action := .EXEC, pass := true, order := some exampleOrder }] =
        [] :=
  ⟨by norm_num,
   c3_stale_plan_aborts 120 1000000 (fun _ => 0) (fun _ => .success)
     [{ candidateId := "c", borrower := "0xb", netProfitUsd := 5,
         action := .EXEC, pass := true, order := some exampleOrder }]
     (by norm_num)⟩

/-- C9 counterexample: an entry whose expiry equals the current time is
still reported as blacklisted (`Date.now() > expiry` is strict), although
the claim says an entry with `expiry <= now` is inert. -/
theorem c9_boundary_expiry_still_active :
    isBlacklisted [("0xab", 100)] "0xab" 100 = true := by decide

/-- Looking up the key just written by `setKey` yields the new value: the
write first removes every old binding of the key. -/
theorem lookup_setKey (bl : Blacklist) (k : Address) (v : ℕ) :
    List.lookup k (setKey bl k v) = some v := by
  simp only [setKey]
  induction bl with
  | nil => simp [List.lookup]
  | cons kv rest ih =>
    rcases eq_or_ne kv.1 k with hk | hk
    · rw [List.filter_cons_of_neg (by simp [hk])]
      exact ih
    · have hbeq : (k == kv.1) = false := by
        simp only [beq_eq_false_iff_ne, ne_eq]
        exact fun h => hk h.symm
      rw [List.filter_cons_of_pos (by simp [hk]), List.cons_append]
      simpa [List.lookup, hbeq] using ih

/-- C9 (amended): the expiry boundary is strict. An entry whose expiry is
strictly in the past (or zero, a falsy value) is inert for the membership
check; the next `addToBlacklist` write prunes exactly the entries with
`expiry < now` and binds the new address to `now + durationMs`, which is
then an active entry up to that expiry. -/
theorem c9_blacklist_expiry_semantics (bl : Blacklist) (a : Address)
    (e now dur : ℕ) :
    (List.lookup (lowerAddr a) bl = some e → e < now →
      isBlacklisted bl a now = false) ∧
    (∀ k v, (k, v) ∈ addToBlacklist bl a now dur →
      (k = lowerAddr a ∧ v = now + dur) ∨ ((k, v) ∈ bl ∧ now ≤ v)) ∧
    List.lookup (lowerAddr a) (addToBlacklist bl a now dur) =
      some (now + dur) ∧
    (∀ t, t ≤ now + dur → 0 < now + dur →
      isBlacklisted (addToBlacklist bl a now dur) a t = true) := by
  have hlook : List.lookup (lowerAddr a) (addToBlacklist bl a now dur) =
      some (now + dur) := lookup_setKey _ _ _
  refine ⟨fun hl he => ?_, fun k v hm => ?_, hlook, fun t ht hpos => ?_⟩
  · simp only [isBlacklisted, hl]
    rcases eq_or_ne e 0 with h0 | h0
    · simp [h0]
    · rw [if_neg h0, if_pos he]
  · simp only [addToBlacklist, setKey, List.mem_append, List.mem_filter,
      List.mem_singleton] at hm
    rcases hm with ⟨⟨hmem, hkeep⟩, _⟩ | hnew
    · exact Or.inr ⟨hmem, by simpa using hkeep⟩
    · injection hnew with h1 h2
      exact Or.inl ⟨h1, h2⟩
  · simp only [isBlacklisted, hlook]
    rw [if_neg (by omega), if_neg (by omega)]

/-- Witness for C9: the amended blacklist theorem applied to the concrete
store `{"0xab" ↦ 50}` at `now = 100` with a 3600000 ms cooldown for the
mixed-case address `"0xAb"`: the stale entry is inert, the write yields
expiry 3600100, and the account is blacklisted at `t = 200`. -/
theorem c9_blacklist_expiry_semantics_witness :
    isBlacklisted [("0xab", 50)] "0xAb" 100 = false ∧
    List.lookup (lowerAddr "0xAb")
      (addToBlacklist [("0xab", 50)] "0xAb" 100 3600000) = some 3600100 ∧
    isBlacklisted (addToBlacklist [("0xab", 50)] "0xAb" 100 3600000)
      "0xAb" 200 = true :=
  ⟨(c9_blacklist_expiry_semantics [("0xab", 50)] "0xAb" 50 100 3600000).1
      (by decide) (by decide),
   (c9_blacklist_expiry_semantics [("0xab", 50)] "0xAb" 50 100 3600000).2.2.1,
   (c9_blacklist_expiry_semantics [("0xab", 50)] "0xAb" 50 100 3600000).2.2.2
      200 (by decide) (by decide)⟩

/-- C7 counterexample: an account with an active (unexpired) blacklist
entry that sits in the rotating background chunk is still passed to the
health engine — only the priority lane is blacklist-filtered. -/
theorem c7_blacklisted_chunk_still_evaluated :
    isBlacklisted [("0xaa", 1000)] "0xaa" 500 = true ∧
      "0xaa" ∈ usersCheck [("0xaa", 1000)] 500 [] ["0xaa"] 0 := by
  constructor
  · decide
  · simp [usersCheck, chunkOf]

/-- C7 (amended): the evaluation set of a sentry cycle consists of exactly
the non-blacklisted priority accounts plus the whole rotating background
chunk (whether blacklisted or not), and is empty when the universe is
empty: only the priority lane is filtered against the blacklist before
evaluation. -/
theorem c7_evaluation_set (bl : Blacklist) (now : ℕ)
    (priority dbUsers : List Address) (cursor : ℕ) (u : Address) :
    u ∈ usersCheck bl now priority dbUsers cursor ↔
      dbUsers ≠ [] ∧
        ((u ∈ priority ∧ isBlacklisted bl u now = false) ∨
          u ∈ chunkOf dbUsers cursor) := by
  simp only [usersCheck]
  split_ifs with h
  · simp [h]
  · simp [h, List.mem_dedup, List.mem_append, List.mem_filter]

/-- Witness for C7: the evaluation-set theorem applied to a universe of
one blacklisted account at cursor 0 with an empty priority set. -/
theorem c7_evaluation_set_witness :
    "0xaa" ∈ usersCheck [("0xaa", 1000)] 500 [] ["0xaa"] 0 :=
  (c7_evaluation_set [("0xaa", 1000)] 500 [] ["0xaa"] 0 "0xaa").mpr
    ⟨by decide, Or.inr (by decide)⟩

/-- C8 counterexample: an account whose health factor is exactly 0 (below
the 1.5 warning threshold, so the claim demands (re-)insertion) is
removed from the priority set — the code requires `hf > 0` to insert. -/
theorem c8_zero_hf_evicted :
    (0:ℚ) < 3/2 ∧
      "0xa" ∉ priorityUpdate [] 0 ["0xa"]
        ⟨"0xa", 0, 100, 50, none, none, none⟩ := by
  refine ⟨by norm_num, ?_⟩
  simp [priorityUpdate, prInsert, prErase, tierOf, isBlacklisted, lowerAddr,
    lowerChar]

/-- The `below_watch` tier is exactly health factor ≥ 1.1. -/
theorem tier_below_watch_iff (hf : ℚ) :
    tierOf hf = .below_watch ↔ 11/10 ≤ hf := by
  unfold tierOf
  split_ifs with ha hb
  · exact ⟨fun hcon => absurd hcon (by decide), fun hge => by linarith⟩
  · exact ⟨fun hcon => absurd hcon (by decide), fun hge => by linarith⟩
  · exact ⟨fun _ => by linarith, fun _ => rfl⟩

/-- C8 (amended): after processing one health result, the account is in
the priority set iff its health factor lies strictly between 0 and the 1.5
warning threshold, except that watch/exec-tier accounts (hf < 1.1) that
hit the ghost filter (collateral and debt both < $1) or the blacklist are
evicted as cleanup; in particular hf = 0 and hf ≥ 1.5 are always evicted. -/
theorem c8_priority_update (bl : Blacklist) (now : ℕ) (pr : List Address)
    (h : UserHealth) :
    h.user ∈ priorityUpdate bl now pr h ↔
      (0 < h.healthFactor ∧ h.healthFactor < 3/2 ∧
        (h.healthFactor < 11/10 →
          ¬(h.totalCollateralUSD < 1 ∧ h.totalDebtUSD < 1) ∧
            isBlacklisted bl h.user now = false)) := by
  have hmem_ins : h.user ∈ prInsert pr h.user := by
    simp only [prInsert]
    split_ifs with hin
    · exact hin
    · simp
  have hmem_ers : ∀ l, h.user ∉ prErase l h.user := fun l => by
    simp [prErase]
  simp only [priorityUpdate]
  by_cases hA : h.healthFactor < 3/2 ∧ 0 < h.healthFactor
  · rw [if_pos hA]
    by_cases hB : tierOf h.healthFactor = .below_watch
    · rw [if_pos hB]
      refine iff_of_true hmem_ins ⟨hA.2, hA.1, fun hlt => ?_⟩
      rw [tier_below_watch_iff] at hB
      linarith
    · rw [if_neg hB]
      have hlt : h.healthFactor < 11/10 := by
        by_contra hge
        exact hB ((tier_below_watch_iff _).mpr (by linarith))
      by_cases hC : h.totalCollateralUSD < 1 ∧ h.totalDebtUSD < 1
      · rw [if_pos hC]
        exact iff_of_false (hmem_ers _)
          (fun hR => (hR.2.2 hlt).1 hC)
      · rw [if_neg hC]
        by_cases hD : isBlacklisted bl h.user now = true
        · rw [if_pos hD]
          refine iff_of_false (hmem_ers _) (fun hR => ?_)
          have hfalse := (hR.2.2 hlt).2
          rw [hD] at hfalse
          exact Bool.noConfusion hfalse
        · rw [if_neg hD]
          exact iff_of_true hmem_ins
            ⟨hA.2, hA.1, fun _ => ⟨hC, by simpa using hD⟩⟩
  · rw [if_neg hA]
    split_ifs <;>
      exact iff_of_false (hmem_ers _) (fun hR => hA ⟨hR.2.1, hR.1⟩)

/-- Witness for C8: the priority-update theorem applied to a watch-tier
account (hf = 1.05, collateral $100, debt $50, not blacklisted), which is
inserted into an initially empty priority set. -/
theorem c8_priority_update_witness :
    "0xa" ∈ priorityUpdate [] 0 [] ⟨"0xa", 21/20, 100, 50, none, none, none⟩ :=
  (c8_priority_update [] 0 [] ⟨"0xa", 21/20, 100, 50, none, none, none⟩).mpr
    ⟨by norm_num, by norm_num, fun _ => ⟨by norm_num, by decide⟩⟩

/-- C5 counterexample: for an account below the 1.1 risk ceiling the
detailed per-account call returns the zero address as best debt asset,
not the highest-USD-value debt asset of the allow-listed set (here USDC,
as the repo's own `getUserAssets` selection computes), and carries no
outstanding-debt amount. -/
theorem c5_detailed_call_returns_no_assets :
    hfOf exRaw < 11/10 ∧
    (parseHealth "0xu" exRaw).bestDebt = some zeroAddress ∧
    (parseHealth "0xu" exRaw).bestDebtAmount = none ∧
    (getUserAssets exBal).bestDebt = addrUSDC ∧
    addrUSDC ≠ zeroAddress := by
  refine ⟨?_, ?_, ?_, ?_, by decide⟩
  · norm_num [hfOf, exRaw]
  · rw [parseHealth, if_neg (by norm_num [hfOf, exRaw])]
    rfl
  · rw [parseHealth, if_neg (by norm_num [hfOf, exRaw])]
    rfl
  · have hU : exBal addrUSDC = ⟨100000000, 0, 500000000⟩ := rfl
    have hT : exBal addrUSDT = ⟨0, 0, 0⟩ := rfl
    have hW : exBal addrWETH = ⟨330000000000, 300000000000000000, 0⟩ := rfl
    have hA : exBal addrARB = ⟨0, 0, 0⟩ := rfl
    have hB : exBal addrWBTC = ⟨0, 0, 0⟩ := rfl
    have hD : exBal addrDAI = ⟨0, 0, 0⟩ := rfl
    simp only [getUserAssets, TOP_RESERVES, List.foldl_cons, List.foldl_nil,
      assetStep, hU, hT, hW, hA, hB, hD]
    norm_num

/-- C5 (amended): for every account whose batched health factor is below
the 1.1 risk ceiling the health engine performs the extra per-account
detailed call, but that call returns only the coarse snapshot (health
factor and 1e8-scaled USD totals) with zero-address best-asset
placeholders and no debt amount; best-asset selection over the
allow-listed reserve set is deferred to the planner's `getUserAssets`. -/
theorem c5_below_ceiling_detailed (user : Address) (raw : RawAccountData)
    (hlt : hfOf raw < 11/10) :
    parseHealth user raw = getUserHealthDetailed user raw ∧
    (parseHealth user raw).bestDebt = some zeroAddress ∧
    (parseHealth user raw).bestCollateral = some zeroAddress ∧
    (parseHealth user raw).bestDebtAmount = none ∧
    (parseHealth user raw).healthFactor = hfOf raw ∧
    (parseHealth user raw).totalCollateralUSD =
      (raw.totalCollateralBase : ℚ) / 10^8 ∧
    (parseHealth user raw).totalDebtUSD = (raw.totalDebtBase : ℚ) / 10^8 := by
  have hp : parseHealth user raw = getUserHealthDetailed user raw := by
    rw [parseHealth, if_neg (by linarith)]
  refine ⟨hp, ?_, ?_, ?_, ?_, ?_, ?_⟩ <;> rw [hp] <;> rfl

/-- Witness for C5: the amended theorem applied to the concrete account
data with health factor 0.95. -/
theorem c5_below_ceiling_detailed_witness :
    parseHealth "0xu" exRaw = getUserHealthDetailed "0xu" exRaw ∧
      (parseHealth "0xu" exRaw).bestDebt = some zeroAddress :=
  ⟨(c5_below_ceiling_detailed "0xu" exRaw (by norm_num [hfOf, exRaw])).1,
   (c5_below_ceiling_detailed "0xu" exRaw (by norm_num [hfOf, exRaw])).2.1⟩

/-- C4 failing input: with a universe below the 50000 threshold and
`deepBlock = 10000500` (just above the 10000000 floor), the next backfill
cycle writes `deepBlock = 9999499`, strictly below the floor — the
"Don't go to genesis" branch only shrinks the window to 1000 blocks
instead of clamping, so backfill keeps descending past the floor. -/
theorem c4_backfill_crosses_floor :
    (updatedPointers 200000000 0 10000500 0).2 = 9999499 ∧
      (9999499 : ℤ) < 10000000 ∧ (10000000 : ℤ) ≤ 10000500 := by
  refine ⟨?_, by norm_num, by norm_num⟩
  norm_num [updatedPointers, computeWindow]
